import Mathlib

/-!
Verification development for an audio-splitter HTTP service (`src/main.py`).

The service exposes `POST /split`: it resolves a source audio object from an
object-storage backend, splits it into fixed-duration chunks with an external
`ffmpeg` subprocess, uploads the chunks back to storage, and returns the list
of remote chunk paths.

The shallow embedding below translates the handler `split_audio`, the splitter
wrapper `run_ffmpeg_split`, and the upload loop into pure Lean functions.
External effects (storage download, filesystem write, the ffmpeg subprocess,
storage upload) are modelled by an environment `Env` of oracles describing the
outcome of each effectful call, and the handler additionally produces a trace
of the externally visible events it performs, so that claims about which calls
happen (and in which order) are statable.
-/

namespace STT

/-- Process-wide configuration (from environment variables).
`BUCKET_DEFAULT = os.getenv("AUDIO_BUCKET", "audio-files")`,
`CHUNK_SECONDS_DEFAULT = int(os.getenv("CHUNK_SECONDS", "600"))`. -/
structure Config where
  bucketDefault : String
  chunkSecondsDefault : Int
deriving DecidableEq

/-- The configuration absent any environment overrides. -/
def defaultConfig : Config := ⟨"audio-files", 600⟩

/-- The request body of `POST /split` (pydantic model `SplitRequest`).
`outputPref` embeds the source field `outputPrefix`. Pydantic performs no
range validation on `chunkSeconds`: any integer is accepted. -/
structure SplitRequest where
  transcriptionId : String
  storagePath : String
  bucket : Option String
  chunkSeconds : Option Int
  outputPref : Option String
deriving DecidableEq

/-- The response body (`SplitResponse`). -/
structure SplitResponse where
  parts : List String
  bucket : String
  chunkSeconds : Int
  ffmpeg : Option String
deriving DecidableEq

/-- Python `x or default` for an optional string: `None` and `""` are falsy. -/
def pyOrStr : Option String → String → String
  | none, d => d
  | some s, d => if s = "" then d else s

/-- Python `x or default` for an optional integer: `None` and `0` are falsy. -/
def pyOrInt : Option Int → Int → Int
  | none, d => d
  | some n, d => if n = 0 then d else n

/-- `bucket = req.bucket or BUCKET_DEFAULT` (main.py line 123). -/
def usedBucket (cfg : Config) (req : SplitRequest) : String :=
  pyOrStr req.bucket cfg.bucketDefault

/-- `chunk_seconds = req.chunkSeconds or CHUNK_SECONDS_DEFAULT` (line 124). -/
def usedChunkSeconds (cfg : Config) (req : SplitRequest) : Int :=
  pyOrInt req.chunkSeconds cfg.chunkSecondsDefault

/-- `output_prefix = req.outputPrefix or "audio-chunks"` (line 125). -/
def usedOutputPref (req : SplitRequest) : String :=
  pyOrStr req.outputPref "audio-chunks"

/-- Python `s[-n:]`: the last `n` characters of `s` (all of `s` if shorter).
Embeds the `[-4000:]` truncation of ffmpeg's stderr. -/
def tailChars (n : Nat) (s : String) : String :=
  ⟨s.data.drop (s.data.length - n)⟩

/-- Whether a file name matches the glob `part_*.m4a` used in
`out_dir.glob("part_*.m4a")`: at least 9 characters, the first five are
`part_` and the last four are `.m4a`. -/
def matchesPartGlob (name : String) : Bool :=
  decide (9 ≤ name.data.length) &&
    decide (name.data.take 5 = "part_".data) &&
    decide (name.data.drop (name.data.length - 4) = ".m4a".data)

/-- Lexicographic comparison of strings by code point, as Python's `sorted`
compares file names: `a ≤ b` on the underlying character lists. This
coincides pointwise with `String`'s linear order (`String.le_iff_toList_le`)
but reduces in the kernel. -/
def stringLe (a b : String) : Prop := a.data ≤ b.data

instance : DecidableRel stringLe :=
  fun a b => inferInstanceAs (Decidable (a.data ≤ b.data))

instance : IsTotal String stringLe := ⟨fun a b => le_total a.data b.data⟩

instance : IsTrans String stringLe := ⟨fun _ _ _ h h' => le_trans h h'⟩

/-- Outcome of the ffmpeg subprocess (`subprocess.run(cmd, check=True, ...,
timeout=600)`): either the process completed with an exit code, stderr
output and a set of files now present in the output directory, or the
600-second timeout expired. -/
inductive FfmpegRun where
  | completed (exitCode : Nat) (stderr : String) (files : List String)
  | timedOut
deriving DecidableEq

/-- Embedding of `run_ffmpeg_split` (main.py lines 73-103), abstracted over
the subprocess outcome: a non-zero exit raises `ffmpeg failed: ` plus the
last 4000 characters of stderr, a timeout raises the fixed timeout message,
and on success the produced `part_*.m4a` files are collected sorted
lexicographically; zero produced files is an error. -/
def run_ffmpeg_split (run : FfmpegRun) : Except String (List String) :=
  match run with
  | .timedOut =>
      .error "ffmpeg timeout (600s). Try shorter chunkSeconds or check input format."
  | .completed exitCode stderr files =>
      if exitCode ≠ 0 then
        .error ("ffmpeg failed: " ++ tailChars 4000 stderr)
      else
        let parts := List.insertionSort stringLe (files.filter matchesPartGlob)
        if parts.isEmpty then
          .error "No chunks produced; check input format or ffmpeg install."
        else
          .ok parts

/-- Outcome of `sb.storage.from_(bucket).download(path)`. -/
inductive DownloadOutcome where
  | bytes (content : List Nat)
  | retNone
  | raises (msg : String)
deriving DecidableEq

/-- Outcome of `sb.storage.from_(bucket).upload(path, fh, opts)`. -/
inductive UploadOutcome where
  | ok
  | retNone
  | raises (msg : String)
deriving DecidableEq

/-- Oracles for the effectful calls a single request performs. -/
structure Env where
  findFfmpeg : Option (String × String)
  download : String → String → DownloadOutcome
  writeInput : Option String
  ffmpeg : FfmpegRun
  upload : String → UploadOutcome

/-- Externally visible events of one request, in order of occurrence.
`deleteCall` is in the alphabet of storage operations so that absence of
any rollback of uploaded objects is statable; the handler never emits it. -/
inductive Event where
  | downloadCall (bucket path : String)
  | createWorkspace
  | writeInputFile
  | ffmpegCall (chunkSeconds : Int)
  | uploadCall (bucket remotePath contentType upsert : String)
  | deleteCall (bucket path : String)
  | destroyWorkspace
deriving DecidableEq

/-- Result of the handler as seen by the HTTP layer: a 200 with a
`SplitResponse`, an `HTTPException(status, detail)`, or an exception that
escapes the handler (which the framework maps to a 500). -/
inductive HandlerResult where
  | ok (resp : SplitResponse)
  | httpError (status : Nat) (detail : String)
  | unhandledError (msg : String)
deriving DecidableEq

/-- HTTP status code of a handler result. -/
def HandlerResult.status : HandlerResult → Nat
  | .ok _ => 200
  | .httpError s _ => s
  | .unhandledError _ => 500

/-- The upload loop of `split_audio` (lines 156-174): for each part file, in
order, compute `remote_path = base_dir + "/" + name` and upload it with
content type `audio/mp4` and `upsert: true`; an exception or a `None` result
aborts the loop with an error naming the remote path. Returns the collected
storage paths (or the error) together with the upload events performed. -/
def uploadLoop (upload : String → UploadOutcome) (bucket base_dir : String) :
    List String → Except String (List String) × List Event
  | [] => (.ok [], [])
  | p :: rest =>
      let remote := base_dir ++ "/" ++ p
      let ev := Event.uploadCall bucket remote "audio/mp4" "true"
      match upload remote with
      | .raises e =>
          (.error ("Supabase upload failed for " ++ remote ++ ": " ++ e), [ev])
      | .retNone =>
          (.error ("Upload returned None for " ++ remote), [ev])
      | .ok =>
          match uploadLoop upload bucket base_dir rest with
          | (.ok paths, evs) => (.ok (remote :: paths), ev :: evs)
          | (.error e, evs) => (.error e, ev :: evs)

/-- Body of the `with tempfile.TemporaryDirectory()` block (lines 139-174):
write the downloaded bytes to the input file, run the splitter, then upload
each chunk. Failures become `HTTPException(500, ...)`. -/
def splitBody (env : Env) (tid bucket : String) (chunk_seconds : Int)
    (output_pref ffmpeg_ver : String) : HandlerResult × List Event :=
  match env.writeInput with
  | some e => (.httpError 500 ("Failed to write temp input: " ++ e), [.writeInputFile])
  | none =>
      match run_ffmpeg_split env.ffmpeg with
      | .error e => (.httpError 500 e, [.writeInputFile, .ffmpegCall chunk_seconds])
      | .ok parts =>
          let base_dir := output_pref ++ "/" ++ tid
          match uploadLoop env.upload bucket base_dir parts with
          | (.error e, evs) =>
              (.httpError 500 e, .writeInputFile :: .ffmpegCall chunk_seconds :: evs)
          | (.ok storage_paths, evs) =>
              (.ok ⟨storage_paths, bucket, chunk_seconds, some ffmpeg_ver⟩,
               .writeInputFile :: .ffmpegCall chunk_seconds :: evs)

/-- Embedding of the `POST /split` handler `split_audio` (lines 121-181):
apply defaults, locate ffmpeg, download the source object from storage (the
path is passed verbatim; there is no URL branch and no separator stripping),
then run the workspace body. The temporary workspace is created before the
body and destroyed after it on every path through the body. -/
def split_audio (cfg : Config) (env : Env) (req : SplitRequest) :
    HandlerResult × List Event :=
  let bucket := usedBucket cfg req
  let chunk_seconds := usedChunkSeconds cfg req
  let output_pref := usedOutputPref req
  match env.findFfmpeg with
  | none =>
      (.unhandledError "ffmpeg not found. Set FFMPEG_PATH or install ffmpeg on the server.",
       [])
  | some (_, ffmpeg_ver) =>
      match env.download bucket req.storagePath with
      | .raises e =>
          (.httpError 500 ("Supabase download threw exception: " ++ e),
           [.downloadCall bucket req.storagePath])
      | .retNone =>
          (.httpError 404 ("File not found or access denied: bucket=" ++ bucket ++
             ", path=" ++ req.storagePath),
           [.downloadCall bucket req.storagePath])
      | .bytes _ =>
          let body := splitBody env req.transcriptionId bucket chunk_seconds
            output_pref ffmpeg_ver
          (body.1,
           .downloadCall bucket req.storagePath :: .createWorkspace ::
             (body.2 ++ [.destroyWorkspace]))

/-- Decimal digit character: `Char.ofNat (48 + d)` is `'0'`..`'9'` for d < 10. -/
def digitChar (d : Nat) : Char := Char.ofNat (48 + d)

/-- The `%03d` rendering of an index below 1000. -/
def pad3 (i : Nat) : List Char :=
  [digitChar (i / 100), digitChar (i / 10 % 10), digitChar (i % 10)]

/-- The file name ffmpeg gives the `i`-th segment under the output pattern
`part_%03d.m4a`, for `i < 1000`. -/
def partName (i : Nat) : String :=
  ⟨'p' :: 'a' :: 'r' :: 't' :: '_' :: (pad3 i ++ ['.', 'm', '4', 'a'])⟩

/-- The canonical file set ffmpeg's segment muxer produces for `n` chunks:
`part_000.m4a`, ..., zero-padded, ascending from 0. -/
def canonicalParts (n : Nat) : List String :=
  (List.range n).map partName

/-- Whether an event is a storage upload call. -/
def isUploadEv : Event → Bool
  | .uploadCall _ _ _ _ => true
  | _ => false

/-- Concrete request fixture: all optional fields omitted. -/
def wReq : SplitRequest := ⟨"t1", "uploads/a.m4a", none, none, none⟩

/-- Environment fixture for a fully successful request producing two chunks. -/
def wEnvOk : Env :=
  ⟨some ("/usr/bin/ffmpeg", "ffmpeg version 6.0"),
   fun _ _ => .bytes [0], none, .completed 0 "" (canonicalParts 2), fun _ => .ok⟩

/-- The response the successful fixture produces. -/
def wRespOk : SplitResponse :=
  ⟨["audio-chunks/t1/part_000.m4a", "audio-chunks/t1/part_001.m4a"],
   "audio-files", 600, some "ffmpeg version 6.0"⟩

/-- Request fixture omitting chunkSeconds and outputPrefix while supplying a
bucket. -/
def wReqMixed : SplitRequest :=
  ⟨"t1", "uploads/a.m4a", some "other-bucket", none, none⟩

/-- The response the mixed fixture produces: the supplied bucket and the
defaulted chunkSeconds. -/
def wRespMixed : SplitResponse :=
  ⟨["audio-chunks/t1/part_000.m4a", "audio-chunks/t1/part_001.m4a"],
   "other-bucket", 600, some "ffmpeg version 6.0"⟩

/-- Environment fixture whose download returns `None`. -/
def wEnvDlNone : Env :=
  ⟨some ("/usr/bin/ffmpeg", "ffmpeg version 6.0"),
   fun _ _ => .retNone, none, .completed 0 "" (canonicalParts 2), fun _ => .ok⟩

/-- Environment fixture whose download raises an exception. -/
def wEnvDlRaise : Env :=
  ⟨some ("/usr/bin/ffmpeg", "ffmpeg version 6.0"),
   fun _ _ => .raises "boom", none, .completed 0 "" (canonicalParts 2), fun _ => .ok⟩

/-- Environment fixture where ffmpeg exits non-zero with stderr output. -/
def wEnvFfFail : Env :=
  ⟨some ("/usr/bin/ffmpeg", "ffmpeg version 6.0"),
   fun _ _ => .bytes [0], none, .completed 1 "boom" [], fun _ => .ok⟩

/-- Environment fixture where the upload of the second chunk raises. -/
def wEnvUpFail : Env :=
  ⟨some ("/usr/bin/ffmpeg", "ffmpeg version 6.0"),
   fun _ _ => .bytes [0], none, .completed 0 "" (canonicalParts 2),
   fun r => if r = "audio-chunks/t1/part_001.m4a" then .raises "denied" else .ok⟩

/-- Request fixture whose storagePath is an https URL. -/
def cexReqUrl : SplitRequest :=
  ⟨"t1", "https://example.com/audio.m4a", none, none, none⟩

/-- Request fixture whose storagePath has a leading path separator. -/
def cexReqSlash : SplitRequest := ⟨"t1", "/uploads/a.m4a", none, none, none⟩

/-- How the handler surfaces the splitter failure modes: a non-zero ffmpeg
exit yields HTTP 500 whose detail is the descriptive prefix plus the final
4000 characters of stderr; exceeding the 600-second wall-clock limit yields
HTTP 500 with the fixed timeout message; a clean exit with zero matching
output files yields HTTP 500 with the no-chunks message; whenever the
splitter fails, no upload call is ever made; and the retained stderr tail is
at most 4000 characters and a suffix of the full stderr. -/
def FfmpegFailureSpec (cfg : Config) (env : Env) (req : SplitRequest) : Prop :=
  (∀ code stderr files, env.ffmpeg = .completed code stderr files → code ≠ 0 →
    (split_audio cfg env req).1 =
      .httpError 500 ("ffmpeg failed: " ++ tailChars 4000 stderr)) ∧
  (env.ffmpeg = .timedOut →
    (split_audio cfg env req).1 =
      .httpError 500
        "ffmpeg timeout (600s). Try shorter chunkSeconds or check input format.") ∧
  (∀ stderr files, env.ffmpeg = .completed 0 stderr files →
    files.filter matchesPartGlob = [] →
    (split_audio cfg env req).1 =
      .httpError 500 "No chunks produced; check input format or ffmpeg install.") ∧
  (∀ e, run_ffmpeg_split env.ffmpeg = .error e →
    ∀ b r ct up, Event.uploadCall b r ct up ∉ (split_audio cfg env req).2) ∧
  (∀ s : String, (tailChars 4000 s).data.length ≤ 4000 ∧
    List.IsSuffix (tailChars 4000 s).data s.data)

/-- How the handler uploads the splitter's files: no rollback (delete)
operation ever occurs; if every upload succeeds, the upload calls in the
trace are exactly one per chunk, in chunk order, each with content type
audio/mp4 and upsert true; and if the uploads succeed up to the first
failing file, the handler stops at that file, responds HTTP 500 with a
message naming that remote path, and the trace shows exactly the uploads up
to and including the failed one. -/
def UploadSpec (cfg : Config) (env : Env) (req : SplitRequest)
    (parts : List String) : Prop :=
  (∀ b p, Event.deleteCall b p ∉ (split_audio cfg env req).2) ∧
  ((∀ p ∈ parts, env.upload
      (usedOutputPref req ++ "/" ++ req.transcriptionId ++ "/" ++ p) = .ok) →
    (split_audio cfg env req).2.filter isUploadEv =
      parts.map (fun p => Event.uploadCall (usedBucket cfg req)
        (usedOutputPref req ++ "/" ++ req.transcriptionId ++ "/" ++ p)
        "audio/mp4" "true")) ∧
  (∀ good bad rest, parts = good ++ bad :: rest →
    (∀ p ∈ good, env.upload
      (usedOutputPref req ++ "/" ++ req.transcriptionId ++ "/" ++ p) = .ok) →
    env.upload (usedOutputPref req ++ "/" ++ req.transcriptionId ++ "/" ++ bad) ≠ .ok →
    ∃ msg, (split_audio cfg env req).1 = .httpError 500 msg ∧
      ((∃ e, msg = "Supabase upload failed for " ++
          (usedOutputPref req ++ "/" ++ req.transcriptionId ++ "/" ++ bad) ++
          ": " ++ e) ∨
        msg = "Upload returned None for " ++
          (usedOutputPref req ++ "/" ++ req.transcriptionId ++ "/" ++ bad)) ∧
      (split_audio cfg env req).2.filter isUploadEv =
        (good ++ [bad]).map (fun p => Event.uploadCall (usedBucket cfg req)
          (usedOutputPref req ++ "/" ++ req.transcriptionId ++ "/" ++ p)
          "audio/mp4" "true"))

/-! ### Helper lemmas -/

theorem uploadLoop_ok_inv {u : String → UploadOutcome} {b bd : String} :
    ∀ {ps paths : List String} {evs : List Event},
      uploadLoop u b bd ps = (.ok paths, evs) →
      paths = ps.map (fun p => bd ++ "/" ++ p) ∧
      evs = ps.map (fun p => Event.uploadCall b (bd ++ "/" ++ p) "audio/mp4" "true")
  | [], paths, evs => by
      intro h
      simp only [uploadLoop, Prod.mk.injEq, Except.ok.injEq] at h
      simp [← h.1, ← h.2]
  | p :: rest, paths, evs => by
      intro h
      simp only [uploadLoop] at h
      cases hu : u (bd ++ "/" ++ p) with
      | raises e => rw [hu] at h; simp at h
      | retNone => rw [hu] at h; simp at h
      | ok =>
        rw [hu] at h
        rcases hrec : uploadLoop u b bd rest with ⟨r, evs'⟩
        rw [hrec] at h
        cases r with
        | error e => simp at h
        | ok paths' =>
          simp only [Prod.mk.injEq, Except.ok.injEq] at h
          obtain ⟨hp, he⟩ := uploadLoop_ok_inv hrec
          subst hp; subst he
          simp [← h.1, ← h.2]

theorem uploadLoop_all_ok {u : String → UploadOutcome} (b bd : String) :
    ∀ ps : List String, (∀ p ∈ ps, u (bd ++ "/" ++ p) = .ok) →
      uploadLoop u b bd ps =
        (.ok (ps.map (fun p => bd ++ "/" ++ p)),
         ps.map (fun p => Event.uploadCall b (bd ++ "/" ++ p) "audio/mp4" "true"))
  | [], _ => rfl
  | p :: rest, hall => by
      have hp := hall p (List.mem_cons_self ..)
      have hrest := uploadLoop_all_ok b bd rest
        (fun q hq => hall q (List.mem_cons_of_mem _ hq))
      simp [uploadLoop, hp, hrest]

theorem uploadLoop_first_fail {u : String → UploadOutcome} (b bd : String) :
    ∀ (good : List String) (bad : String) (rest : List String),
      (∀ p ∈ good, u (bd ++ "/" ++ p) = .ok) →
      u (bd ++ "/" ++ bad) ≠ .ok →
      ∃ msg,
        uploadLoop u b bd (good ++ bad :: rest) =
          (.error msg,
           (good ++ [bad]).map
             (fun p => Event.uploadCall b (bd ++ "/" ++ p) "audio/mp4" "true")) ∧
        ((∃ e, msg = "Supabase upload failed for " ++ (bd ++ "/" ++ bad) ++ ": " ++ e) ∨
          msg = "Upload returned None for " ++ (bd ++ "/" ++ bad))
  | [], bad, rest, _, hbad => by
      cases hu : u (bd ++ "/" ++ bad) with
      | ok => exact absurd hu hbad
      | retNone => exact ⟨_, by simp [uploadLoop, hu], Or.inr rfl⟩
      | raises e => exact ⟨_, by simp [uploadLoop, hu], Or.inl ⟨e, rfl⟩⟩
  | g :: good, bad, rest, hgood, hbad => by
      have hg := hgood g (List.mem_cons_self ..)
      obtain ⟨msg, heq, hshape⟩ := uploadLoop_first_fail b bd good bad rest
        (fun q hq => hgood q (List.mem_cons_of_mem _ hq)) hbad
      exact ⟨msg, by simp [uploadLoop, hg, heq], hshape⟩

theorem uploadLoop_events {u : String → UploadOutcome} {b bd : String} :
    ∀ {ps : List String} {ev : Event}, ev ∈ (uploadLoop u b bd ps).2 →
      ∃ r, ev = .uploadCall b r "audio/mp4" "true"
  | [], ev => by intro h; simp [uploadLoop] at h
  | p :: rest, ev => by
      intro h
      simp only [uploadLoop] at h
      cases hu : u (bd ++ "/" ++ p) with
      | raises e => rw [hu] at h; simp at h; exact ⟨_, h⟩
      | retNone => rw [hu] at h; simp at h; exact ⟨_, h⟩
      | ok =>
        rw [hu] at h
        rcases hrec : uploadLoop u b bd rest with ⟨r, evs'⟩
        rw [hrec] at h
        cases r with
        | ok paths =>
          simp at h
          rcases h with h | h
          · exact ⟨_, h⟩
          · have hmem : ev ∈ (uploadLoop u b bd rest).2 := by rw [hrec]; exact h
            exact uploadLoop_events hmem
        | error e =>
          simp at h
          rcases h with h | h
          · exact ⟨_, h⟩
          · have hmem : ev ∈ (uploadLoop u b bd rest).2 := by rw [hrec]; exact h
            exact uploadLoop_events hmem

theorem splitBody_events {env : Env} {tid b : String} {cs : Int} {op fv : String}
    {ev : Event} (h : ev ∈ (splitBody env tid b cs op fv).2) :
    ev = .writeInputFile ∨ ev = .ffmpegCall cs ∨
      ∃ r, ev = .uploadCall b r "audio/mp4" "true" := by
  unfold splitBody at h
  cases hw : env.writeInput with
  | some e => rw [hw] at h; simp at h; exact Or.inl h
  | none =>
    rw [hw] at h
    cases hs : run_ffmpeg_split env.ffmpeg with
    | error e =>
      rw [hs] at h; simp at h
      rcases h with h | h
      · exact Or.inl h
      · exact Or.inr (Or.inl h)
    | ok parts =>
      rw [hs] at h
      rcases hu : uploadLoop env.upload b (op ++ "/" ++ tid) parts with ⟨r, evs⟩
      simp only [hu] at h
      cases r with
      | error e =>
        simp at h
        rcases h with h | h | h
        · exact Or.inl h
        · exact Or.inr (Or.inl h)
        · exact Or.inr (Or.inr (uploadLoop_events (by rw [hu]; exact h)))
      | ok paths =>
        simp at h
        rcases h with h | h | h
        · exact Or.inl h
        · exact Or.inr (Or.inl h)
        · exact Or.inr (Or.inr (uploadLoop_events (by rw [hu]; exact h)))

theorem split_audio_reach {cfg : Config} {env : Env} {req : SplitRequest}
    {pv : String × String} {content : List Nat}
    (hfind : env.findFfmpeg = some pv)
    (hdl : env.download (usedBucket cfg req) req.storagePath = .bytes content) :
    split_audio cfg env req =
      ((splitBody env req.transcriptionId (usedBucket cfg req)
          (usedChunkSeconds cfg req) (usedOutputPref req) pv.2).1,
       .downloadCall (usedBucket cfg req) req.storagePath :: .createWorkspace ::
         ((splitBody env req.transcriptionId (usedBucket cfg req)
             (usedChunkSeconds cfg req) (usedOutputPref req) pv.2).2 ++
           [.destroyWorkspace])) := by
  rcases pv with ⟨pth, ver⟩
  simp [split_audio, hfind, hdl]

theorem split_audio_ok_inv {cfg : Config} {env : Env} {req : SplitRequest}
    {resp : SplitResponse}
    (hok : (split_audio cfg env req).1 = .ok resp) :
    ∃ (pv : String × String) (parts : List String) (content : List Nat),
      env.findFfmpeg = some pv ∧
      env.download (usedBucket cfg req) req.storagePath = .bytes content ∧
      env.writeInput = none ∧
      run_ffmpeg_split env.ffmpeg = .ok parts ∧
      resp = ⟨parts.map (fun p =>
          usedOutputPref req ++ "/" ++ req.transcriptionId ++ "/" ++ p),
        usedBucket cfg req, usedChunkSeconds cfg req, some pv.2⟩ := by
  cases hfind : env.findFfmpeg with
  | none => simp [split_audio, hfind] at hok
  | some pv =>
    rcases pv with ⟨pth, ver⟩
    cases hdl : env.download (usedBucket cfg req) req.storagePath with
    | raises e => simp [split_audio, hfind, hdl] at hok
    | retNone => simp [split_audio, hfind, hdl] at hok
    | bytes content =>
      rw [split_audio_reach hfind hdl] at hok
      simp only at hok
      unfold splitBody at hok
      cases hw : env.writeInput with
      | some e => rw [hw] at hok; simp at hok
      | none =>
        rw [hw] at hok
        cases hs : run_ffmpeg_split env.ffmpeg with
        | error e => rw [hs] at hok; simp at hok
        | ok parts =>
          rw [hs] at hok
          rcases hu : uploadLoop env.upload (usedBucket cfg req)
              (usedOutputPref req ++ "/" ++ req.transcriptionId) parts with ⟨r, evs⟩
          simp only [hu] at hok
          cases r with
          | error e => simp at hok
          | ok paths =>
            obtain ⟨hp, -⟩ := uploadLoop_ok_inv hu
            subst hp
            exact ⟨⟨pth, ver⟩, parts, content, rfl, rfl, rfl, rfl,
              (HandlerResult.ok.inj hok).symm⟩

theorem run_ffmpeg_split_ok_inv {r : FfmpegRun} {parts : List String}
    (h : run_ffmpeg_split r = .ok parts) :
    ∃ stderr files, r = .completed 0 stderr files ∧
      parts = List.insertionSort stringLe (files.filter matchesPartGlob) ∧
      parts ≠ [] := by
  cases r with
  | timedOut => simp [run_ffmpeg_split] at h
  | completed code stderr files =>
    by_cases hc : code = 0
    · subst hc
      refine ⟨stderr, files, rfl, ?_⟩
      simp only [run_ffmpeg_split, ne_eq, not_true_eq_false, ite_false] at h
      split at h
      · simp at h
      · rename_i hemp
        simp only [Except.ok.injEq] at h
        subst h
        exact ⟨rfl, by simpa using hemp⟩
    · exfalso
      simp only [run_ffmpeg_split, if_pos (by exact hc)] at h
      simp at h

theorem run_ffmpeg_split_timeout :
    run_ffmpeg_split .timedOut =
      .error "ffmpeg timeout (600s). Try shorter chunkSeconds or check input format." :=
  rfl

theorem run_ffmpeg_split_nonzero {code : Nat} (hc : code ≠ 0) (stderr : String)
    (files : List String) :
    run_ffmpeg_split (.completed code stderr files) =
      .error ("ffmpeg failed: " ++ tailChars 4000 stderr) := by
  simp only [run_ffmpeg_split]
  rw [if_pos hc]

theorem run_ffmpeg_split_no_output {stderr : String} {files : List String}
    (hfil : files.filter matchesPartGlob = []) :
    run_ffmpeg_split (.completed 0 stderr files) =
      .error "No chunks produced; check input format or ffmpeg install." := by
  simp only [run_ffmpeg_split, ne_eq, not_true_eq_false, if_false, hfil]
  rfl

theorem tailChars_length_le (n : Nat) (s : String) :
    (tailChars n s).data.length ≤ n := by
  show (s.data.drop (s.data.length - n)).length ≤ n
  rw [List.length_drop]
  omega

theorem tailChars_suffix (n : Nat) (s : String) :
    List.IsSuffix (tailChars n s).data s.data :=
  ⟨s.data.take (s.data.length - n), List.take_append_drop _ _⟩

theorem digitChar_lt : ∀ b, b < 10 → ∀ a, a < b → digitChar a < digitChar b := by decide

theorem pad3_append_lex {i j : Nat} (hij : i < j) (hj : j < 1000) (suffix : List Char) :
    List.Lex (· < ·) (pad3 i ++ suffix) (pad3 j ++ suffix) := by
  show List.Lex (· < ·)
    (digitChar (i / 100) :: digitChar (i / 10 % 10) :: digitChar (i % 10) :: suffix)
    (digitChar (j / 100) :: digitChar (j / 10 % 10) :: digitChar (j % 10) :: suffix)
  have h2 : i / 100 ≤ j / 100 := Nat.div_le_div_right (le_of_lt hij)
  rcases lt_or_eq_of_le h2 with h100 | h100
  · exact List.Lex.rel (digitChar_lt (j / 100) (by omega) (i / 100) h100)
  · rw [h100]
    have hA : i / 10 % 10 ≤ j / 10 % 10 := by omega
    rcases lt_or_eq_of_le hA with h10 | h10
    · exact List.Lex.cons
        (List.Lex.rel (digitChar_lt (j / 10 % 10) (by omega) (i / 10 % 10) h10))
    · rw [h10]
      have h1 : i % 10 < j % 10 := by omega
      exact List.Lex.cons (List.Lex.cons
        (List.Lex.rel (digitChar_lt (j % 10) (by omega) (i % 10) h1)))

theorem partName_lex {i j : Nat} (hij : i < j) (hj : j < 1000) :
    List.Lex (· < ·) (partName i).data (partName j).data := by
  show List.Lex (· < ·)
    ('p' :: 'a' :: 'r' :: 't' :: '_' :: (pad3 i ++ ['.', 'm', '4', 'a']))
    ('p' :: 'a' :: 'r' :: 't' :: '_' :: (pad3 j ++ ['.', 'm', '4', 'a']))
  exact List.Lex.cons (List.Lex.cons (List.Lex.cons (List.Lex.cons
    (List.Lex.cons (pad3_append_lex hij hj _)))))

theorem partName_le {i j : Nat} (hij : i ≤ j) (hj : j < 1000) :
    stringLe (partName i) (partName j) := by
  rcases lt_or_eq_of_le hij with h | rfl
  · exact le_of_lt (partName_lex h hj)
  · exact le_refl (partName i).data

theorem canonicalParts_pairwise {n : Nat} (hn : n ≤ 1000) :
    List.Pairwise stringLe (canonicalParts n) := by
  unfold canonicalParts
  rw [List.pairwise_map]
  exact (List.pairwise_lt_range n).imp_of_mem
    (fun {a b} _ hb hab =>
      partName_le (le_of_lt hab) (lt_of_lt_of_le (List.mem_range.mp hb) hn))

theorem matchesPartGlob_partName (i : Nat) : matchesPartGlob (partName i) = true := rfl

theorem filter_canonicalParts (n : Nat) :
    (canonicalParts n).filter matchesPartGlob = canonicalParts n :=
  List.filter_eq_self.mpr (fun a ha => by
    obtain ⟨i, -, rfl⟩ := List.mem_map.mp ha
    exact matchesPartGlob_partName i)

theorem canonicalParts_length (n : Nat) : (canonicalParts n).length = n := by
  simp [canonicalParts]

/-- On the canonical ffmpeg output file set, the splitter succeeds and returns
exactly the canonical files (the glob keeps all of them and they are already
sorted). -/
theorem run_ffmpeg_split_canonical {n : Nat} (hn : 0 < n) (hn' : n ≤ 1000)
    (stderr : String) :
    run_ffmpeg_split (.completed 0 stderr (canonicalParts n)) =
      .ok (canonicalParts n) := by
  have hne : (canonicalParts n).isEmpty = false := by
    simp [canonicalParts, List.isEmpty_iff, List.range_eq_nil]
    omega
  simp only [run_ffmpeg_split, ne_eq, not_true_eq_false, if_false,
    filter_canonicalParts,
    List.Sorted.insertionSort_eq (canonicalParts_pairwise hn'), hne,
    Bool.false_eq_true, ite_false]

/-- The i-th segment file name is the fixed name with a three-digit
zero-padded numeric suffix. -/
theorem partName_eq_pad3 (i : Nat) :
    partName i = "part_" ++ String.mk (pad3 i) ++ ".m4a" := rfl

/-! ### Claims -/

/-- C1: for every successful request to POST /split, the number of entries in
the response parts list equals the number of chunk files the splitter
returned; the splitter returns the produced files sorted lexicographically,
and the handler appends exactly one remote path per file in that same order
(the response is the order-preserving image of the splitter list). -/
theorem c1_parts_match_splitter (cfg : Config) (env : Env) (req : SplitRequest)
    (resp : SplitResponse)
    (hok : (split_audio cfg env req).1 = .ok resp) :
    ∃ parts : List String,
      run_ffmpeg_split env.ffmpeg = .ok parts ∧
      resp.parts.length = parts.length ∧
      List.Sorted stringLe parts ∧
      resp.parts = parts.map (fun p =>
        usedOutputPref req ++ "/" ++ req.transcriptionId ++ "/" ++ p) := by
  obtain ⟨pv, parts, content, -, -, -, hs, hresp⟩ := split_audio_ok_inv hok
  refine ⟨parts, hs, ?_, ?_, ?_⟩
  · rw [hresp]; simp
  · obtain ⟨stderr, files, -, hparts, -⟩ := run_ffmpeg_split_ok_inv hs
    rw [hparts]
    exact List.sorted_insertionSort stringLe _
  · rw [hresp]

/-- Witness for c1: the successful two-chunk fixture. -/
theorem c1_witness :
    (split_audio defaultConfig wEnvOk wReq).1 = .ok wRespOk ∧
    ∃ parts : List String,
      run_ffmpeg_split wEnvOk.ffmpeg = .ok parts ∧
      wRespOk.parts.length = parts.length ∧
      List.Sorted stringLe parts ∧
      wRespOk.parts = parts.map (fun p =>
        usedOutputPref wReq ++ "/" ++ wReq.transcriptionId ++ "/" ++ p) :=
  ⟨by decide, c1_parts_match_splitter defaultConfig wEnvOk wReq wRespOk (by decide)⟩

/-- C2 counterexample: for a request whose storagePath is an https URL, the
handler nevertheless invokes the storage backend download call with that URL,
so the claim that the backend download call is not invoked at all is false at
this input (the code has no direct HTTP fetch path). -/
theorem c2_counterexample :
    Event.downloadCall "audio-files" "https://example.com/audio.m4a" ∈
      (split_audio defaultConfig wEnvOk cexReqUrl).2 := by decide

/-- C2 amended: for every request (once ffmpeg is discoverable), including
those whose storagePath begins with an HTTP or HTTPS scheme, the handler
fetches the source via the storage backend download call with the request
storagePath; no direct HTTP client fetch exists. -/
theorem c2_amended_backend_always (cfg : Config) (env : Env)
    (req : SplitRequest) (pv : String × String)
    (hfind : env.findFfmpeg = some pv) :
    Event.downloadCall (usedBucket cfg req) req.storagePath ∈
      (split_audio cfg env req).2 := by
  rcases pv with ⟨pth, ver⟩
  cases hdl : env.download (usedBucket cfg req) req.storagePath with
  | raises e => simp [split_audio, hfind, hdl]
  | retNone => simp [split_audio, hfind, hdl]
  | bytes content =>
    rw [split_audio_reach hfind hdl]
    simp

/-- Witness for the amended c2, at the https-URL request. -/
theorem c2_amended_witness :
    wEnvOk.findFfmpeg = some ("/usr/bin/ffmpeg", "ffmpeg version 6.0") ∧
    Event.downloadCall (usedBucket defaultConfig cexReqUrl)
        cexReqUrl.storagePath ∈
      (split_audio defaultConfig wEnvOk cexReqUrl).2 :=
  ⟨rfl, c2_amended_backend_always defaultConfig wEnvOk cexReqUrl _ rfl⟩

/-- C3 counterexample: when the storage backend raises an error during
download, the handler responds with HTTP 500, not the 404 the claim states
for backend-reported errors. -/
theorem c3_counterexample :
    (split_audio defaultConfig wEnvDlRaise wReq).1 =
      .httpError 500 "Supabase download threw exception: boom" ∧
    (split_audio defaultConfig wEnvDlRaise wReq).1.status ≠ 404 := by decide

/-- C3 amended: a nonexistent or inaccessible source (the backend download
returns null) yields HTTP 404 with no chunk uploaded; a backend error thrown
during download yields HTTP 500, also with no chunk uploaded. -/
theorem c3_amended_download_failures (cfg : Config) (env : Env)
    (req : SplitRequest) (pv : String × String)
    (hfind : env.findFfmpeg = some pv) :
    (env.download (usedBucket cfg req) req.storagePath = .retNone →
      (split_audio cfg env req).1 =
        .httpError 404 ("File not found or access denied: bucket=" ++
          usedBucket cfg req ++ ", path=" ++ req.storagePath) ∧
      ∀ b r ct up, Event.uploadCall b r ct up ∉ (split_audio cfg env req).2) ∧
    (∀ e, env.download (usedBucket cfg req) req.storagePath = .raises e →
      (split_audio cfg env req).1 =
        .httpError 500 ("Supabase download threw exception: " ++ e) ∧
      ∀ b r ct up, Event.uploadCall b r ct up ∉ (split_audio cfg env req).2) := by
  rcases pv with ⟨pth, ver⟩
  constructor
  · intro hdl
    constructor
    · simp [split_audio, hfind, hdl]
    · intro b r ct up
      simp [split_audio, hfind, hdl]
  · intro e hdl
    constructor
    · simp [split_audio, hfind, hdl]
    · intro b r ct up
      simp [split_audio, hfind, hdl]

/-- Witness for the amended c3, at the null-download fixture. -/
theorem c3_amended_witness :
    wEnvDlNone.findFfmpeg = some ("/usr/bin/ffmpeg", "ffmpeg version 6.0") ∧
    ((wEnvDlNone.download (usedBucket defaultConfig wReq) wReq.storagePath =
        .retNone →
      (split_audio defaultConfig wEnvDlNone wReq).1 =
        .httpError 404 ("File not found or access denied: bucket=" ++
          usedBucket defaultConfig wReq ++ ", path=" ++ wReq.storagePath) ∧
      ∀ b r ct up, Event.uploadCall b r ct up ∉
        (split_audio defaultConfig wEnvDlNone wReq).2) ∧
    (∀ e, wEnvDlNone.download (usedBucket defaultConfig wReq) wReq.storagePath =
        .raises e →
      (split_audio defaultConfig wEnvDlNone wReq).1 =
        .httpError 500 ("Supabase download threw exception: " ++ e) ∧
      ∀ b r ct up, Event.uploadCall b r ct up ∉
        (split_audio defaultConfig wEnvDlNone wReq).2)) :=
  ⟨rfl, c3_amended_download_failures defaultConfig wEnvDlNone wReq _ rfl⟩

/-- C4 counterexample: for a storagePath with a leading path separator, the
backend is asked for exactly that string; the separator-stripped variant is
never requested, so the claimed stripping does not happen. -/
theorem c4_counterexample :
    Event.downloadCall "audio-files" "/uploads/a.m4a" ∈
      (split_audio defaultConfig wEnvOk cexReqSlash).2 ∧
    Event.downloadCall "audio-files" "uploads/a.m4a" ∉
      (split_audio defaultConfig wEnvOk cexReqSlash).2 := by decide

/-- C4 amended: every storage download call the handler makes carries the
request storagePath verbatim (and the resolved bucket); leading path
separators are not stripped. -/
theorem c4_amended_path_verbatim (cfg : Config) (env : Env)
    (req : SplitRequest) (b p : String)
    (h : Event.downloadCall b p ∈ (split_audio cfg env req).2) :
    b = usedBucket cfg req ∧ p = req.storagePath := by
  cases hfind : env.findFfmpeg with
  | none => simp [split_audio, hfind] at h
  | some pv =>
    rcases pv with ⟨pth, ver⟩
    cases hdl : env.download (usedBucket cfg req) req.storagePath with
    | raises e =>
      simp [split_audio, hfind, hdl] at h
      exact ⟨h.1, h.2⟩
    | retNone =>
      simp [split_audio, hfind, hdl] at h
      exact ⟨h.1, h.2⟩
    | bytes content =>
      rw [split_audio_reach hfind hdl] at h
      simp only [List.mem_cons, List.mem_append, List.mem_singleton] at h
      rcases h with h | h | h | h
      · rw [Event.downloadCall.injEq] at h
        exact h
      · simp at h
      · rcases splitBody_events h with h | h | ⟨r, h⟩ <;> simp at h
      · simp at h

/-- Witness for the amended c4. -/
theorem c4_amended_witness :
    Event.downloadCall "audio-files" "uploads/a.m4a" ∈
      (split_audio defaultConfig wEnvOk wReq).2 ∧
    ("audio-files" = usedBucket defaultConfig wReq ∧
      "uploads/a.m4a" = wReq.storagePath) :=
  ⟨by decide, c4_amended_path_verbatim defaultConfig wEnvOk wReq
    "audio-files" "uploads/a.m4a" (by decide)⟩

/-- C5: for every successful request, each optional field that was omitted is
replaced by its configured default — bucket audio-files, chunkSeconds 600,
outputPrefix audio-chunks absent overrides — independently of whether the
other fields were supplied, and the response bucket and chunkSeconds fields
always report the values actually used rather than what the caller sent. -/
theorem c5_defaults (env : Env) (req : SplitRequest) (resp : SplitResponse)
    (hok : (split_audio defaultConfig env req).1 = .ok resp) :
    (req.bucket = none → usedBucket defaultConfig req = "audio-files") ∧
    (req.chunkSeconds = none → usedChunkSeconds defaultConfig req = 600) ∧
    (req.outputPref = none → usedOutputPref req = "audio-chunks") ∧
    resp.bucket = usedBucket defaultConfig req ∧
    resp.chunkSeconds = usedChunkSeconds defaultConfig req := by
  obtain ⟨pv, parts, content, -, -, -, -, hresp⟩ := split_audio_ok_inv hok
  refine ⟨?_, ?_, ?_, by rw [hresp], by rw [hresp]⟩
  · intro hb
    simp [usedBucket, pyOrStr, hb, defaultConfig]
  · intro hc
    simp [usedChunkSeconds, pyOrInt, hc, defaultConfig]
  · intro hp
    simp [usedOutputPref, pyOrStr, hp]

/-- Witness for c5: a request omitting chunkSeconds and outputPrefix while
supplying a bucket; the omitted fields default and the response reports the
supplied bucket together with the defaulted chunkSeconds. -/
theorem c5_witness :
    (split_audio defaultConfig wEnvOk wReqMixed).1 = .ok wRespMixed ∧
    ((wReqMixed.bucket = none →
        usedBucket defaultConfig wReqMixed = "audio-files") ∧
      (wReqMixed.chunkSeconds = none →
        usedChunkSeconds defaultConfig wReqMixed = 600) ∧
      (wReqMixed.outputPref = none → usedOutputPref wReqMixed = "audio-chunks") ∧
      wRespMixed.bucket = usedBucket defaultConfig wReqMixed ∧
      wRespMixed.chunkSeconds = usedChunkSeconds defaultConfig wReqMixed) :=
  ⟨by decide, c5_defaults wEnvOk wReqMixed wRespMixed (by decide)⟩

/-- C6: when ffmpeg produces the canonical segment files for n chunks
(n up to 1000, where the three-digit padding is injective and order-aligned),
the i-th response entry is outputPrefix/transcriptionId/part_NNN.m4a with NNN
the three-digit zero-padded index i, and every upload call carries content
type audio/mp4 and upsert true, so re-invoking /split with the same
transcriptionId and outputPrefix writes (overwrites) the same remote paths:
the paths depend only on the request fields and the index. -/
theorem c6_remote_paths (cfg : Config) (env : Env) (req : SplitRequest)
    (resp : SplitResponse) (n : Nat) (stderr : String)
    (hn : n ≤ 1000)
    (hff : env.ffmpeg = .completed 0 stderr (canonicalParts n))
    (hok : (split_audio cfg env req).1 = .ok resp) :
    resp.parts.length = n ∧
    (∀ i (hi : i < resp.parts.length),
      resp.parts.get ⟨i, hi⟩ =
        usedOutputPref req ++ "/" ++ req.transcriptionId ++ "/" ++
          ("part_" ++ String.mk (pad3 i) ++ ".m4a")) ∧
    (∀ b r ct up, Event.uploadCall b r ct up ∈ (split_audio cfg env req).2 →
      ct = "audio/mp4" ∧ up = "true") := by
  obtain ⟨pv, parts, content, hfind, hdl, hw, hs, hresp⟩ := split_audio_ok_inv hok
  subst hresp
  rw [hff] at hs
  obtain ⟨st2, files2, heq, hparts, hne⟩ := run_ffmpeg_split_ok_inv hs
  obtain ⟨-, -, hfiles⟩ := FfmpegRun.completed.inj heq
  subst hfiles
  rw [filter_canonicalParts,
    List.Sorted.insertionSort_eq (canonicalParts_pairwise hn)] at hparts
  subst hparts
  refine ⟨?_, ?_, ?_⟩
  · simp [canonicalParts]
  · intro i hi
    simp only [List.get_eq_getElem, canonicalParts, List.getElem_map,
      List.getElem_range]
    rfl
  · intro b r ct up hmem
    rw [split_audio_reach hfind hdl] at hmem
    simp only [List.mem_cons, List.mem_append, List.mem_singleton] at hmem
    rcases hmem with h | h | h | h
    · simp at h
    · simp at h
    · rcases splitBody_events h with h2 | h2 | ⟨r2, h2⟩
      · simp at h2
      · simp at h2
      · rw [Event.uploadCall.injEq] at h2
        exact ⟨h2.2.2.1, h2.2.2.2⟩
    · simp at h

/-- Witness for c6: the two-chunk fixture. -/
theorem c6_witness :
    (2 : Nat) ≤ 1000 ∧
    wEnvOk.ffmpeg = .completed 0 "" (canonicalParts 2) ∧
    (split_audio defaultConfig wEnvOk wReq).1 = .ok wRespOk ∧
    (wRespOk.parts.length = 2 ∧
      (∀ i (hi : i < wRespOk.parts.length),
        wRespOk.parts.get ⟨i, hi⟩ =
          usedOutputPref wReq ++ "/" ++ wReq.transcriptionId ++ "/" ++
            ("part_" ++ String.mk (pad3 i) ++ ".m4a")) ∧
      (∀ b r ct up, Event.uploadCall b r ct up ∈
          (split_audio defaultConfig wEnvOk wReq).2 →
        ct = "audio/mp4" ∧ up = "true")) :=
  ⟨by decide, rfl, by decide,
   c6_remote_paths defaultConfig wEnvOk wReq wRespOk 2 "" (by decide) rfl
     (by decide)⟩

/-- C7: once the request has a source and a written input file, every
splitter failure (non-zero exit, 600-second timeout, zero output files)
surfaces as HTTP 500 with the descriptive message (at most the last 4000
characters of stderr), and the publisher is never invoked. -/
theorem c7_ffmpeg_failures (cfg : Config) (env : Env) (req : SplitRequest)
    (pv : String × String) (content : List Nat)
    (hfind : env.findFfmpeg = some pv)
    (hdl : env.download (usedBucket cfg req) req.storagePath = .bytes content)
    (hwr : env.writeInput = none) :
    FfmpegFailureSpec cfg env req := by
  have hmain : ∀ e, run_ffmpeg_split env.ffmpeg = .error e →
      (split_audio cfg env req).1 = .httpError 500 e ∧
      ∀ b r ct up, Event.uploadCall b r ct up ∉ (split_audio cfg env req).2 := by
    intro e herr
    rw [split_audio_reach hfind hdl]
    constructor
    · simp [splitBody, hwr, herr]
    · intro b r ct up
      simp [splitBody, hwr, herr]
  refine ⟨?_, ?_, ?_, fun e herr => (hmain e herr).2, ?_⟩
  · intro code stderr files hff hc
    have hrun : run_ffmpeg_split env.ffmpeg =
        .error ("ffmpeg failed: " ++ tailChars 4000 stderr) := by
      rw [hff]
      exact run_ffmpeg_split_nonzero hc stderr files
    exact (hmain _ hrun).1
  · intro hff
    have hrun : run_ffmpeg_split env.ffmpeg =
        .error
          "ffmpeg timeout (600s). Try shorter chunkSeconds or check input format." := by
      rw [hff]
      exact run_ffmpeg_split_timeout
    exact (hmain _ hrun).1
  · intro stderr files hff hfil
    have hrun : run_ffmpeg_split env.ffmpeg =
        .error "No chunks produced; check input format or ffmpeg install." := by
      rw [hff]
      exact run_ffmpeg_split_no_output hfil
    exact (hmain _ hrun).1
  · exact fun s => ⟨tailChars_length_le 4000 s, tailChars_suffix 4000 s⟩

/-- Witness for c7: the non-zero-exit fixture. -/
theorem c7_witness :
    wEnvFfFail.findFfmpeg = some ("/usr/bin/ffmpeg", "ffmpeg version 6.0") ∧
    wEnvFfFail.download (usedBucket defaultConfig wReq) wReq.storagePath =
      .bytes [0] ∧
    wEnvFfFail.writeInput = none ∧
    FfmpegFailureSpec defaultConfig wEnvFfFail wReq :=
  ⟨rfl, rfl, rfl,
   c7_ffmpeg_failures defaultConfig wEnvFfFail wReq _ [0] rfl rfl rfl⟩

theorem filter_isUploadEv_map (b ct up : String) (f : String → String)
    (ps : List String) :
    (ps.map (fun p => Event.uploadCall b (f p) ct up)).filter isUploadEv =
      ps.map (fun p => Event.uploadCall b (f p) ct up) := by
  refine List.filter_eq_self.mpr ?_
  intro ev hmem
  obtain ⟨p, -, rfl⟩ := List.mem_map.mp hmem
  rfl

/-- C8: uploads happen one at a time in chunk order; on the first failing
upload the handler aborts the remaining uploads and responds HTTP 500 naming
the failing remote path, and no rollback of already-uploaded chunks happens
(no delete call is ever made). -/
theorem c8_upload_contract (cfg : Config) (env : Env) (req : SplitRequest)
    (pv : String × String) (content : List Nat) (parts : List String)
    (hfind : env.findFfmpeg = some pv)
    (hdl : env.download (usedBucket cfg req) req.storagePath = .bytes content)
    (hwr : env.writeInput = none)
    (hs : run_ffmpeg_split env.ffmpeg = .ok parts) :
    UploadSpec cfg env req parts := by
  refine ⟨?_, ?_, ?_⟩
  · intro b p hmem
    rw [split_audio_reach hfind hdl] at hmem
    simp only [List.mem_cons, List.mem_append, List.mem_singleton] at hmem
    rcases hmem with h | h | h | h
    · simp at h
    · simp at h
    · rcases splitBody_events h with h2 | h2 | ⟨r2, h2⟩ <;> simp at h2
    · simp at h
  · intro hall
    have hloop := uploadLoop_all_ok (usedBucket cfg req)
      (usedOutputPref req ++ "/" ++ req.transcriptionId) parts hall
    rw [split_audio_reach hfind hdl]
    simp only [splitBody, hwr, hs, hloop, List.filter_cons, List.filter_append,
      isUploadEv, List.filter_nil, List.append_nil, ite_false, ite_true,
      Bool.false_eq_true, Bool.true_eq_false, if_false, if_true]
    exact filter_isUploadEv_map (usedBucket cfg req) "audio/mp4" "true"
      (fun p => usedOutputPref req ++ "/" ++ req.transcriptionId ++ "/" ++ p) parts
  · intro good bad rest hsplit hgood hbad
    obtain ⟨msg, hloop, hshape⟩ := uploadLoop_first_fail
      (usedBucket cfg req)
      (usedOutputPref req ++ "/" ++ req.transcriptionId) good bad rest hgood hbad
    refine ⟨msg, ?_, hshape, ?_⟩
    · rw [split_audio_reach hfind hdl]
      simp [splitBody, hwr, hs, hsplit, hloop]
    · rw [split_audio_reach hfind hdl]
      simp only [splitBody, hwr, hs, hsplit, hloop, List.filter_cons,
        List.filter_append, isUploadEv, List.filter_nil, List.append_nil,
        ite_false, ite_true, Bool.false_eq_true, Bool.true_eq_false, if_false,
        if_true]
      exact filter_isUploadEv_map (usedBucket cfg req) "audio/mp4" "true"
        (fun p => usedOutputPref req ++ "/" ++ req.transcriptionId ++ "/" ++ p)
        (good ++ [bad])

/-- Witness for c8: the fixture whose second upload raises. -/
theorem c8_witness :
    wEnvUpFail.findFfmpeg = some ("/usr/bin/ffmpeg", "ffmpeg version 6.0") ∧
    wEnvUpFail.download (usedBucket defaultConfig wReq) wReq.storagePath =
      .bytes [0] ∧
    wEnvUpFail.writeInput = none ∧
    run_ffmpeg_split wEnvUpFail.ffmpeg = .ok ["part_000.m4a", "part_001.m4a"] ∧
    UploadSpec defaultConfig wEnvUpFail wReq ["part_000.m4a", "part_001.m4a"] :=
  ⟨rfl, rfl, rfl, by rfl,
   c8_upload_contract defaultConfig wEnvUpFail wReq _ [0] _ rfl rfl rfl
     (by rfl)⟩

/-- C9: for every request that reaches workspace creation (ffmpeg located and
source bytes downloaded), whatever the outcome of the write, split and upload
steps — success, handled failure, or a fault modelled by their failing
outcomes — the event trace brackets all workspace activity between exactly
one creation and one destruction, with the destruction as the final event:
no workspace state survives the request. -/
theorem c9_workspace_cleanup (cfg : Config) (env : Env) (req : SplitRequest)
    (pv : String × String) (content : List Nat)
    (hfind : env.findFfmpeg = some pv)
    (hdl : env.download (usedBucket cfg req) req.storagePath = .bytes content) :
    ∃ body : List Event,
      (split_audio cfg env req).2 =
        .downloadCall (usedBucket cfg req) req.storagePath :: .createWorkspace ::
          (body ++ [.destroyWorkspace]) ∧
      Event.createWorkspace ∉ body ∧ Event.destroyWorkspace ∉ body := by
  refine ⟨(splitBody env req.transcriptionId (usedBucket cfg req)
      (usedChunkSeconds cfg req) (usedOutputPref req) pv.2).2, ?_, ?_, ?_⟩
  · rw [split_audio_reach hfind hdl]
  · intro h
    rcases splitBody_events h with h2 | h2 | ⟨r2, h2⟩ <;> simp at h2
  · intro h
    rcases splitBody_events h with h2 | h2 | ⟨r2, h2⟩ <;> simp at h2

/-- Witness for c9: the successful fixture. -/
theorem c9_witness :
    wEnvOk.findFfmpeg = some ("/usr/bin/ffmpeg", "ffmpeg version 6.0") ∧
    wEnvOk.download (usedBucket defaultConfig wReq) wReq.storagePath =
      .bytes [0] ∧
    ∃ body : List Event,
      (split_audio defaultConfig wEnvOk wReq).2 =
        .downloadCall (usedBucket defaultConfig wReq) wReq.storagePath ::
          .createWorkspace :: (body ++ [.destroyWorkspace]) ∧
      Event.createWorkspace ∉ body ∧ Event.destroyWorkspace ∉ body :=
  ⟨rfl, rfl, c9_workspace_cleanup defaultConfig wEnvOk wReq _ [0] rfl rfl⟩

/-- C10: a request supplying chunkSeconds = 0, bucket = the empty string, or
outputPrefix = the empty string is treated, field by field, exactly as if
that field were omitted — the whole handler behaves identically to the
request with that one field removed, whatever the other fields hold —
because defaulting uses Python truthiness; and no validation rejects a
non-positive chunkSeconds: any non-zero value, including a negative one, is
used as-is. -/
theorem c10_falsy_fields (cfg : Config) (env : Env) (req : SplitRequest) :
    (req.bucket = some "" →
      split_audio cfg env req =
        split_audio cfg env
          ⟨req.transcriptionId, req.storagePath, none, req.chunkSeconds,
           req.outputPref⟩) ∧
    (req.chunkSeconds = some 0 →
      split_audio cfg env req =
        split_audio cfg env
          ⟨req.transcriptionId, req.storagePath, req.bucket, none,
           req.outputPref⟩) ∧
    (req.outputPref = some "" →
      split_audio cfg env req =
        split_audio cfg env
          ⟨req.transcriptionId, req.storagePath, req.bucket, req.chunkSeconds,
           none⟩) ∧
    (∀ c : Int, c ≠ 0 →
      usedChunkSeconds cfg
        ⟨req.transcriptionId, req.storagePath, req.bucket, some c,
         req.outputPref⟩ = c) := by
  obtain ⟨tid, sp, b, cs, op⟩ := req
  refine ⟨?_, ?_, ?_, ?_⟩
  · rintro rfl
    rfl
  · rintro rfl
    rfl
  · rintro rfl
    rfl
  · intro c hc
    simp [usedChunkSeconds, pyOrInt, hc]

/-- Witness for c10: chunkSeconds = 0 next to a supplied bucket behaves as if
chunkSeconds were omitted, and chunkSeconds = -5 is used as-is. -/
theorem c10_witness :
    (⟨"t1", "uploads/a.m4a", some "other-bucket", some 0, none⟩ :
        SplitRequest).chunkSeconds = some 0 ∧
    split_audio defaultConfig wEnvOk
        ⟨"t1", "uploads/a.m4a", some "other-bucket", some 0, none⟩ =
      split_audio defaultConfig wEnvOk
        ⟨"t1", "uploads/a.m4a", some "other-bucket", none, none⟩ ∧
    (-5 : Int) ≠ 0 ∧
    usedChunkSeconds defaultConfig
      ⟨"t1", "uploads/a.m4a", some "other-bucket", some (-5), none⟩ = -5 :=
  ⟨rfl,
   (c10_falsy_fields defaultConfig wEnvOk
       ⟨"t1", "uploads/a.m4a", some "other-bucket", some 0, none⟩).2.1 rfl,
   by decide,
   (c10_falsy_fields defaultConfig wEnvOk
       ⟨"t1", "uploads/a.m4a", some "other-bucket", some (-5), none⟩).2.2.2 (-5)
     (by decide)⟩

end STT
